import Mathlib

set_option maxRecDepth 4000

/-!
Verification of the propeller_tester telemetry dashboard (`instruments_v6.py`)
and its PWM sweep companion (`meas.py`).

Strings from the serial line are modelled as `List Char`; Python floats are
modelled as exact rationals (`ℚ`); Python exceptions are modelled explicitly
(`PyErr`), and the dashboard's mutable attributes as a record `DState`.
`process_serial_data`'s try-block is embedded statement by statement in a
state-plus-exception monad so that the order of parses and assignments in the
source is preserved.
-/

/-- Convert a string literal to the `List Char` representation used throughout. -/
def chars (s : String) : List Char := s.toList

/-- The character set kept by `process_serial_data`'s cleaning step
(`instruments_v6.py` line 644): `c in '0123456789,.- '`. -/
def allowedChar (c : Char) : Bool :=
  c.isDigit || c == ',' || c == '.' || c == '-' || c == ' '

/-- Python's whitespace characters (as used by `str.strip` / `str.split`),
restricted to ASCII, which is all that can occur here. -/
def isPySpace (c : Char) : Bool :=
  c == ' ' || c == '\t' || c == '\n' || c == '\r' || c == '\x0b' || c == '\x0c'

/-- Python `str.strip()`: remove leading and trailing whitespace. -/
def pyStrip (s : List Char) : List Char :=
  ((s.dropWhile isPySpace).reverse.dropWhile isPySpace).reverse

/-- Python `s.split()[0]`: the first whitespace-separated token of `s`, or
`none` when `s` has no token (in Python: an `IndexError`). -/
def firstTok? (s : List Char) : Option (List Char) :=
  match s.dropWhile isPySpace with
  | [] => none
  | t => some (t.takeWhile fun c => !isPySpace c)

/-- Python `s.split(',')`: split on every comma, keeping empty fields. -/
def splitOnComma : List Char → List (List Char)
  | [] => [[]]
  | c :: cs =>
    if c = ',' then [] :: splitOnComma cs
    else
      match splitOnComma cs with
      | [] => [[c]]
      | p :: ps => (c :: p) :: ps

/-- Read a list of decimal digit characters as a natural number
(most significant digit first). -/
def natFromDigits (s : List Char) : Nat :=
  s.foldl (fun a c => a * 10 + (c.toNat - 48)) 0

/-- Python `int(s)` on the characters that can reach it here (digits, `.`,
`-`, spaces are stripped by the callers): an optional sign followed by a
nonempty run of digits; anything else raises `ValueError` (here: `none`). -/
def parseInt? : List Char → Option Int
  | '-' :: rest =>
    if rest ≠ [] ∧ rest.all Char.isDigit then some (-(natFromDigits rest : Int)) else none
  | '+' :: rest =>
    if rest ≠ [] ∧ rest.all Char.isDigit then some (natFromDigits rest : Int) else none
  | s =>
    if s ≠ [] ∧ s.all Char.isDigit then some (natFromDigits s : Int) else none

/-- Unsigned part of Python `float(s)`, restricted to the characters that
survive the cleaning filter: digits with at most one decimal point and at
least one digit (`"12"`, `"12."`, `".5"`, `"1.5"`). -/
def parseUFloat? (s : List Char) : Option ℚ :=
  if (s.all fun c => c.isDigit || c == '.') ∧ s.count '.' ≤ 1 ∧ s.any Char.isDigit then
    let ip := s.takeWhile (fun c => c ≠ '.')
    let fp := (s.dropWhile (fun c => c ≠ '.')).drop 1
    some (mkRat (natFromDigits ip) 1 + mkRat (natFromDigits fp) 1 / (10 : ℚ) ^ fp.length)
  else none

/-- Python `float(s)` on the reachable character set: optional sign then an
unsigned float; anything else raises `ValueError` (here: `none`). -/
def parseFloat? : List Char → Option ℚ
  | '-' :: rest => (parseUFloat? rest).map (fun q => -q)
  | '+' :: rest => parseUFloat? rest
  | s => parseUFloat? s

/-- The CSV classifier (`instruments_v6.py` lines 636-639):
`data.count(',') >= 4`. -/
def is_csv_data (data : List Char) : Bool :=
  decide (4 ≤ data.count ',')

/-- The rolling-log update (`add_log`, lines 697-701): append the entry, then
drop the front entry when more than 10 are held. -/
def add_log (entries : List (List Char)) (e : List Char) : List (List Char) :=
  let l := entries ++ [e]
  if l.length > 10 then l.drop 1 else l

/-- `CompactAnalogGauge.set_value` (lines 27-28): clamp the value into the
gauge's `[min_val, max_val]` range. -/
def set_value (min_val max_val v : ℚ) : ℚ :=
  max min_val (min v max_val)

/-- The Python exceptions that `process_serial_data`'s body can raise. -/
inductive PyErr
  | valueError
  | indexError
deriving DecidableEq, Repr

/-- The dashboard's mutable display state: the stored channel values, the six
gauge needle values (clamped), the numeric content of the last-update label,
the last-update timestamp, and the rolling log. -/
structure DState where
  thrust_value : ℚ
  current_value : ℚ
  voltage_value : ℚ
  rpm_value : ℚ
  power_value : ℚ
  eff_value : ℚ
  gauge_thrust : ℚ
  gauge_current : ℚ
  gauge_voltage : ℚ
  gauge_rpm : ℚ
  gauge_power : ℚ
  gauge_eff : ℚ
  time_label : ℚ
  last_update_time : ℚ
  log_entries : List (List Char)
deriving DecidableEq

/-- State-and-exception monad for the dashboard: a computation mutates the
`DState` and either returns a value or raises a `PyErr`. -/
def SEx (α : Type) : Type := DState → Except PyErr α × DState

/-- Pure computation: no mutation, no exception. -/
def sPure {α : Type} (a : α) : SEx α := fun st => (Except.ok a, st)

/-- Sequencing: an exception aborts the rest, keeping the state reached so far. -/
def sBind {α β : Type} (m : SEx α) (f : α → SEx β) : SEx β := fun st =>
  match m st with
  | (Except.ok a, st2) => f a st2
  | (Except.error e, st2) => (Except.error e, st2)

instance : Monad SEx where
  pure := sPure
  bind := sBind

/-- An assignment statement: mutate the state. -/
def sModify (f : DState → DState) : SEx Unit := fun st => (Except.ok (), f st)

/-- A fallible Python operation: yields its value or raises exception `e`. -/
def tryOp {α : Type} (e : PyErr) : Option α → SEx α
  | some a => fun st => (Except.ok a, st)
  | none => fun st => (Except.error e, st)

/-- The body of `process_serial_data`'s try block (`instruments_v6.py` lines
643-683), statement by statement: clean, split, parse the five fields (the
current/voltage/rpm fields via `split()[0]`, which raises `IndexError` on an
all-space field; numeric conversion raises `ValueError`), derive power and
efficiency, then assign the stored values, the timestamp, the gauges and the
time label. `now` stands for `time.time()`. -/
def process_try_body (now : ℚ) (data : List Char) : SEx Unit :=
  let cleaned := data.filter allowedChar
  let parts := splitOnComma cleaned
  if parts.length ≥ 5 then do
    let time_ms ← tryOp PyErr.valueError (parseInt? (pyStrip (parts.getD 0 [])))
    let thrust ← tryOp PyErr.valueError (parseFloat? (pyStrip (parts.getD 1 [])))
    let ctok ← tryOp PyErr.indexError (firstTok? (parts.getD 2 []))
    let current ← tryOp PyErr.valueError (parseFloat? (pyStrip ctok))
    let vtok ← tryOp PyErr.indexError (firstTok? (parts.getD 3 []))
    let voltage ← tryOp PyErr.valueError (parseFloat? (pyStrip vtok))
    let rtok ← tryOp PyErr.indexError (firstTok? (parts.getD 4 []))
    let rpm ← tryOp PyErr.valueError (parseFloat? (pyStrip rtok))
    let power := if current ≥ 1/1000 then voltage * current else (0 : ℚ)
    let eff := if power ≥ 1/1000 then thrust / power else (0 : ℚ)
    sModify (fun st => { st with thrust_value := thrust })
    sModify (fun st => { st with current_value := current })
    sModify (fun st => { st with voltage_value := voltage })
    sModify (fun st => { st with rpm_value := rpm })
    sModify (fun st => { st with power_value := power })
    sModify (fun st => { st with eff_value := eff })
    sModify (fun st => { st with last_update_time := now })
    sModify (fun st => { st with gauge_thrust := set_value 0 5000 thrust })
    sModify (fun st => { st with gauge_current := set_value 0 30 current })
    sModify (fun st => { st with gauge_voltage := set_value 0 30 voltage })
    sModify (fun st => { st with gauge_rpm := set_value 0 15000 rpm })
    sModify (fun st => { st with gauge_power := set_value 0 1000 power })
    sModify (fun st => { st with gauge_eff := set_value 0 30 eff })
    sModify (fun st => { st with time_label := (time_ms : ℚ) / 1000 })
  else
    sPure ()

/-- The net state update performed by a successful parse of the five values:
what `process_try_body` does once every field has been parsed. -/
def apply_sample (now : ℚ) (time_ms : Int) (thrust current voltage rpm : ℚ)
    (st : DState) : DState :=
  let power := if current ≥ 1/1000 then voltage * current else (0 : ℚ)
  let eff := if power ≥ 1/1000 then thrust / power else (0 : ℚ)
  { st with
    thrust_value := thrust
    current_value := current
    voltage_value := voltage
    rpm_value := rpm
    power_value := power
    eff_value := eff
    last_update_time := now
    gauge_thrust := set_value 0 5000 thrust
    gauge_current := set_value 0 30 current
    gauge_voltage := set_value 0 30 voltage
    gauge_rpm := set_value 0 15000 rpm
    gauge_power := set_value 0 1000 power
    gauge_eff := set_value 0 30 eff
    time_label := (time_ms : ℚ) / 1000 }

/-- `process_serial_data` (lines 641-686): run the try body and swallow a
`ValueError` (`except ValueError: pass`); an `IndexError` propagates. -/
def process_serial_data (now : ℚ) (data : List Char) : SEx Unit := fun st =>
  match process_try_body now data st with
  | (Except.error PyErr.valueError, st2) => (Except.ok (), st2)
  | r => r

/-- The message `check_serial` logs when an exception escapes
(`f"Read error: {str(e)}"`). -/
def readErrorText : PyErr → List Char
  | PyErr.valueError => chars "Read error: invalid literal"
  | PyErr.indexError => chars "Read error: list index out of range"

/-- One iteration of `check_serial` (lines 604-634) from the decoded line
onward: a nonempty line is logged, then parsed only when the CSV classifier
accepts it; an exception escaping `process_serial_data` is caught and logged
as a read error. -/
def check_serial_line (now : ℚ) (st : DState) (line : List Char) : DState :=
  if line = [] then st
  else
    let st1 := { st with log_entries := add_log st.log_entries line }
    if is_csv_data line = true then
      match process_serial_data now line st1 with
      | (Except.ok _, st2) => st2
      | (Except.error e, st2) =>
        { st2 with log_entries := add_log st2.log_entries (readErrorText e) }
    else st1

/-- An arbitrary concrete dashboard state (fresh startup: zero channel values,
empty log), used to instantiate witnesses. -/
def st0 : DState :=
  ⟨0, 0, 0, 0, 0, 0, 0, 0, 0, 0, 0, 0, 0, 0, []⟩

instance exceptDecEq {ε α : Type} [DecidableEq ε] [DecidableEq α] :
    DecidableEq (Except ε α) := fun x y =>
  match x, y with
  | Except.ok a, Except.ok b =>
    if h : a = b then isTrue (by rw [h]) else isFalse (fun hc => h (Except.ok.inj hc))
  | Except.error a, Except.error b =>
    if h : a = b then isTrue (by rw [h]) else isFalse (fun hc => h (Except.error.inj hc))
  | Except.ok _, Except.error _ => isFalse (fun hc => Except.noConfusion hc)
  | Except.error _, Except.ok _ => isFalse (fun hc => Except.noConfusion hc)

/-! Reduction lemmas for the `SEx` monad. -/

theorem sex_bind_apply {α β : Type} (m : SEx α) (f : α → SEx β) (st : DState) :
    (m >>= f) st =
      match m st with
      | (Except.ok a, st2) => f a st2
      | (Except.error e, st2) => (Except.error e, st2) := rfl

theorem tryOp_some_apply {α : Type} (e : PyErr) (a : α) (st : DState) :
    tryOp e (some a) st = (Except.ok a, st) := rfl

theorem tryOp_none_apply {α : Type} (e : PyErr) (st : DState) :
    tryOp e (none : Option α) st = (Except.error e, st) := rfl

theorem sModify_apply (f : DState → DState) (st : DState) :
    sModify f st = (Except.ok (), f st) := rfl

theorem sPure_apply {α : Type} (a : α) (st : DState) :
    sPure a st = (Except.ok a, st) := rfl

/-- Shorthand for the field list `process_serial_data` works on. -/
def lineParts (data : List Char) : List (List Char) :=
  splitOnComma (data.filter allowedChar)

/-- Successful run of the try body: when the line splits into at least five
fields and all five parses succeed, the body returns normally and performs
exactly the `apply_sample` update. -/
theorem try_body_ok_of_parses (now : ℚ) (data : List Char) (st : DState)
    (time_ms : Int) (thrust : ℚ) (ctok : List Char) (current : ℚ)
    (vtok : List Char) (voltage : ℚ) (rtok : List Char) (rpm : ℚ)
    (h5 : (lineParts data).length ≥ 5)
    (h0 : parseInt? (pyStrip ((lineParts data).getD 0 [])) = some time_ms)
    (h1 : parseFloat? (pyStrip ((lineParts data).getD 1 [])) = some thrust)
    (h2 : firstTok? ((lineParts data).getD 2 []) = some ctok)
    (h3 : parseFloat? (pyStrip ctok) = some current)
    (h4 : firstTok? ((lineParts data).getD 3 []) = some vtok)
    (h6 : parseFloat? (pyStrip vtok) = some voltage)
    (h7 : firstTok? ((lineParts data).getD 4 []) = some rtok)
    (h8 : parseFloat? (pyStrip rtok) = some rpm) :
    process_try_body now data st =
      (Except.ok (), apply_sample now time_ms thrust current voltage rpm st) := by
  simp only [lineParts] at h5 h0 h1 h2 h4 h7
  simp only [process_try_body, h5, if_true, sex_bind_apply, h0, h1, h2, h3, h4, h6, h7, h8,
    tryOp_some_apply, sModify_apply, sPure_apply, apply_sample, set_value]

/-- Failing run, time field: `int()` on the first field raises `ValueError`
before any assignment, leaving the state unchanged. -/
theorem try_body_err_time (now : ℚ) (data : List Char) (st : DState)
    (h5 : (lineParts data).length ≥ 5)
    (h0 : parseInt? (pyStrip ((lineParts data).getD 0 [])) = none) :
    process_try_body now data st = (Except.error PyErr.valueError, st) := by
  simp only [lineParts] at h5 h0
  simp only [process_try_body, h5, if_true, sex_bind_apply, h0, tryOp_none_apply]

/-- Failing run, thrust field: `float()` on the second field raises
`ValueError` before any assignment, leaving the state unchanged. -/
theorem try_body_err_thrust (now : ℚ) (data : List Char) (st : DState) (time_ms : Int)
    (h5 : (lineParts data).length ≥ 5)
    (h0 : parseInt? (pyStrip ((lineParts data).getD 0 [])) = some time_ms)
    (h1 : parseFloat? (pyStrip ((lineParts data).getD 1 [])) = none) :
    process_try_body now data st = (Except.error PyErr.valueError, st) := by
  simp only [lineParts] at h5 h0 h1
  simp only [process_try_body, h5, if_true, sex_bind_apply, h0, h1,
    tryOp_some_apply, tryOp_none_apply]

/-- Failing run, current field: `split()[0]` on an all-space third field
raises `IndexError` before any assignment, leaving the state unchanged. -/
theorem try_body_err_ctok (now : ℚ) (data : List Char) (st : DState)
    (time_ms : Int) (thrust : ℚ)
    (h5 : (lineParts data).length ≥ 5)
    (h0 : parseInt? (pyStrip ((lineParts data).getD 0 [])) = some time_ms)
    (h1 : parseFloat? (pyStrip ((lineParts data).getD 1 [])) = some thrust)
    (h2 : firstTok? ((lineParts data).getD 2 []) = none) :
    process_try_body now data st = (Except.error PyErr.indexError, st) := by
  simp only [lineParts] at h5 h0 h1 h2
  simp only [process_try_body, h5, if_true, sex_bind_apply, h0, h1, h2,
    tryOp_some_apply, tryOp_none_apply]

/-- Exhaustive description of one run of the try body: it either raises with
the state untouched, or returns with the state untouched because the line has
fewer than five fields, or parses all five fields and performs exactly the
`apply_sample` update. -/
theorem process_try_body_cases (now : ℚ) (data : List Char) (st : DState) :
    (∃ e, process_try_body now data st = (Except.error e, st)) ∨
    (process_try_body now data st = (Except.ok (), st) ∧
      ¬ (lineParts data).length ≥ 5) ∨
    (∃ time_ms thrust ctok current vtok voltage rtok rpm,
      parseInt? (pyStrip ((lineParts data).getD 0 [])) = some time_ms ∧
      parseFloat? (pyStrip ((lineParts data).getD 1 [])) = some thrust ∧
      firstTok? ((lineParts data).getD 2 []) = some ctok ∧
      parseFloat? (pyStrip ctok) = some current ∧
      firstTok? ((lineParts data).getD 3 []) = some vtok ∧
      parseFloat? (pyStrip vtok) = some voltage ∧
      firstTok? ((lineParts data).getD 4 []) = some rtok ∧
      parseFloat? (pyStrip rtok) = some rpm ∧
      (lineParts data).length ≥ 5 ∧
      process_try_body now data st =
        (Except.ok (), apply_sample now time_ms thrust current voltage rpm st)) := by
  by_cases h5 : (lineParts data).length ≥ 5
  case neg =>
    refine Or.inr (Or.inl ⟨?_, h5⟩)
    simp only [lineParts] at h5
    simp only [process_try_body, h5, if_false, sPure_apply]
  case pos =>
    have h5x := h5
    simp only [lineParts] at h5x
    rcases h0 : parseInt? (pyStrip ((lineParts data).getD 0 [])) with _ | time_ms
    · exact Or.inl ⟨PyErr.valueError, try_body_err_time now data st h5 h0⟩
    rcases h1 : parseFloat? (pyStrip ((lineParts data).getD 1 [])) with _ | thrust
    · exact Or.inl ⟨PyErr.valueError, try_body_err_thrust now data st time_ms h5 h0 h1⟩
    rcases h2 : firstTok? ((lineParts data).getD 2 []) with _ | ctok
    · exact Or.inl ⟨PyErr.indexError, try_body_err_ctok now data st time_ms thrust h5 h0 h1 h2⟩
    rcases h3 : parseFloat? (pyStrip ctok) with _ | current
    · refine Or.inl ⟨PyErr.valueError, ?_⟩
      simp only [lineParts] at h0 h1 h2
      simp only [process_try_body, h5x, if_true, sex_bind_apply, h0, h1, h2, h3,
        tryOp_some_apply, tryOp_none_apply]
    rcases h4 : firstTok? ((lineParts data).getD 3 []) with _ | vtok
    · refine Or.inl ⟨PyErr.indexError, ?_⟩
      simp only [lineParts] at h0 h1 h2 h4
      simp only [process_try_body, h5x, if_true, sex_bind_apply, h0, h1, h2, h3, h4,
        tryOp_some_apply, tryOp_none_apply]
    rcases h6 : parseFloat? (pyStrip vtok) with _ | voltage
    · refine Or.inl ⟨PyErr.valueError, ?_⟩
      simp only [lineParts] at h0 h1 h2 h4
      simp only [process_try_body, h5x, if_true, sex_bind_apply, h0, h1, h2, h3, h4, h6,
        tryOp_some_apply, tryOp_none_apply]
    rcases h7 : firstTok? ((lineParts data).getD 4 []) with _ | rtok
    · refine Or.inl ⟨PyErr.indexError, ?_⟩
      simp only [lineParts] at h0 h1 h2 h4 h7
      simp only [process_try_body, h5x, if_true, sex_bind_apply, h0, h1, h2, h3, h4, h6, h7,
        tryOp_some_apply, tryOp_none_apply]
    rcases h8 : parseFloat? (pyStrip rtok) with _ | rpm
    · refine Or.inl ⟨PyErr.valueError, ?_⟩
      simp only [lineParts] at h0 h1 h2 h4 h7
      simp only [process_try_body, h5x, if_true, sex_bind_apply, h0, h1, h2, h3, h4, h6, h7, h8,
        tryOp_some_apply, tryOp_none_apply]
    · exact Or.inr (Or.inr ⟨time_ms, thrust, ctok, current, vtok, voltage, rtok, rpm,
        rfl, rfl, rfl, h3, rfl, h6, rfl, h8, h5,
        try_body_ok_of_parses now data st time_ms thrust ctok current vtok voltage rtok rpm
          h5 h0 h1 h2 h3 h4 h6 h7 h8⟩)

/-! Power command encoding (`send_power_value`, `instruments_v6.py` lines
473-475) and the sweep driver (`meas.py`). -/

/-- Decimal rendering of a natural number, as Python's `str(int)` /
f-string formatting produces it. -/
def natDigits (n : Nat) : List Char :=
  if n = 0 then ['0'] else (Nat.digits 10 n).reverse.map Nat.digitChar

/-- `send_power_value` (lines 473-475): the wire command for a slider value,
`f"P {1000 + slider}\n"`. -/
def send_power_value (slider : Nat) : List Char :=
  chars "P " ++ natDigits (1000 + slider) ++ chars "\n"

/-- The PWM step values of the sweep loop (`meas.py` line 32):
`range(start, end + 1, increment)`. -/
def pwm_values (start endv inc : Nat) : List Nat :=
  List.range' start ((endv + 1 - start + inc - 1) / inc) inc

/-- One step of the sweep loop's output (`meas.py` lines 46-47): the line read
for a step is echoed iff it is nonempty and has exactly 4 commas. -/
def sweep_step_output (line : List Char) : List (List Char) :=
  if line ≠ [] ∧ line.count ',' = 4 then [line] else []

/-- The whole sweep run's output: per PWM step, one line is read from the
device (`deviceLines`, in step order) and echoed iff it passes the check. -/
def sweep_run (start endv inc : Nat) (deviceLines : List (List Char)) :
    List (List Char) :=
  (((pwm_values start endv inc).zip deviceLines).map Prod.snd).flatMap sweep_step_output

/-- Follows the spec's words, for comparison with the code: a field "is
truncated at the first space before numeric parsing". -/
def spec_truncate_at_space (s : List Char) : List Char :=
  s.takeWhile (fun c => !(c == ' '))

/-! Decimal round-trip: reading back the digit string `natDigits n` with the
digit-folding reader `natFromDigits` recovers `n`. -/

theorem digitChar_toNat_of_lt {d : Nat} (hd : d < 10) :
    (Nat.digitChar d).toNat = 48 + d := by
  interval_cases d <;> rfl

theorem natFromDigits_rev_map (L : List Nat) (hL : ∀ d ∈ L, d < 10) (a : Nat) :
    List.foldl (fun x c => x * 10 + (c.toNat - 48)) a (L.reverse.map Nat.digitChar) =
      a * 10 ^ L.length + Nat.ofDigits 10 L := by
  induction L generalizing a with
  | nil => simp
  | cons d L ih =>
    have hd : d < 10 := hL d (by simp)
    have hL2 : ∀ x ∈ L, x < 10 := fun x hx => hL x (by simp [hx])
    rw [List.reverse_cons, List.map_append, List.foldl_append, ih hL2 a]
    simp only [List.map_cons, List.map_nil, List.foldl_cons, List.foldl_nil,
      digitChar_toNat_of_lt hd, Nat.ofDigits_cons, List.length_cons]
    ring_nf
    omega

theorem natFromDigits_natDigits (n : Nat) : natFromDigits (natDigits n) = n := by
  by_cases h0 : n = 0
  · subst h0; rfl
  · unfold natDigits natFromDigits
    rw [if_neg h0]
    rw [natFromDigits_rev_map (Nat.digits 10 n)
      (fun d hd => Nat.digits_lt_base (by norm_num) hd) 0]
    simp [Nat.ofDigits_digits]

/-- Helper for instantiating parse hypotheses at concrete inputs in two small
steps (field extraction, then numeric conversion). -/
theorem parseFloat_pyStrip_eq (s t : List Char) (q : ℚ)
    (hst : pyStrip s = t) (hq : parseFloat? t = some q) :
    parseFloat? (pyStrip s) = some q := by
  rw [hst]; exact hq

/-- A nonempty all-digit token parses as a float to its digit value. -/
theorem parseUFloat_all_digits (s : List Char) (hne : s ≠ [])
    (hdig : s.all Char.isDigit = true) :
    parseUFloat? s = some (mkRat (natFromDigits s) 1) := by
  have hdig2 := hdig
  rw [List.all_eq_true] at hdig2
  have hall : (s.all fun c => c.isDigit || c == '.') = true := by
    rw [List.all_eq_true]
    intro c hc
    simp [hdig2 c hc]
  have hmem : ('.' : Char) ∉ s := by
    intro hmem
    have := hdig2 '.' hmem
    simp at this
  have hcount : s.count '.' = 0 := List.count_eq_zero.mpr hmem
  have hany : s.any Char.isDigit = true := by
    cases s with
    | nil => exact absurd rfl hne
    | cons c cs =>
      have := hdig2 c (by simp)
      simp [this]
  have htake : s.takeWhile (fun c => decide (c ≠ '.')) = s := by
    rw [List.takeWhile_eq_self_iff]
    intro c hc
    simp only [decide_eq_true_eq]
    intro hcd
    exact hmem (hcd ▸ hc)
  have hdrop : s.dropWhile (fun c => decide (c ≠ '.')) = [] := by
    rw [List.dropWhile_eq_nil_iff]
    intro c hc
    simp only [decide_eq_true_eq]
    intro hcd
    exact hmem (hcd ▸ hc)
  unfold parseUFloat?
  rw [if_pos ⟨hall, by rw [hcount]; omega, hany⟩]
  rw [htake, hdrop]
  simp [natFromDigits, Rat.mkRat_one]

/-- Same, lifted over the sign dispatch of `parseFloat?`. -/
theorem parseFloat_all_digits (s : List Char) (hne : s ≠ [])
    (hdig : s.all Char.isDigit = true) :
    parseFloat? s = some (mkRat (natFromDigits s) 1) := by
  cases s with
  | nil => exact absurd rfl hne
  | cons c cs =>
    have hc : c.isDigit = true := by
      rw [List.all_eq_true] at hdig
      exact hdig c (by simp)
    unfold parseFloat?
    split
    · rename_i rest heq
      rw [List.cons.injEq] at heq
      rw [heq.1] at hc
      simp at hc
    · rename_i rest heq
      rw [List.cons.injEq] at heq
      rw [heq.1] at hc
      simp at hc
    · exact parseUFloat_all_digits (c :: cs) hne hdig

/-- Concrete corollary form convenient for witnesses: an all-digit token
parses to any `q` equal to its digit value. -/
theorem parseFloat_digits_value (s : List Char) (n : Nat) (q : ℚ) (hne : s ≠ [])
    (hdig : s.all Char.isDigit = true) (hval : natFromDigits s = n)
    (hq : ((n : Int) : ℚ) = q) :
    parseFloat? s = some q := by
  rw [parseFloat_all_digits s hne hdig, hval]
  rw [Rat.mkRat_one, hq]

/-- Claim C1: a line is classified as CSV telemetry iff it contains at least 4
commas; a line failing the test only gets logged and is never passed to the
telemetry parser (the parse state is untouched). -/
theorem c1_csv_classifier (line : List Char) :
    (is_csv_data line = true ↔ 4 ≤ line.count ',') ∧
    (is_csv_data line = false →
      ∀ (now : ℚ) (st : DState),
        check_serial_line now st line =
          if line = [] then st
          else { st with log_entries := add_log st.log_entries line }) := by
  constructor
  · simp [is_csv_data]
  · intro h now st
    by_cases hne : line = []
    · simp [check_serial_line, hne]
    · simp [check_serial_line, hne, h]

theorem c1_csv_classifier_witness :
    (is_csv_data (chars "a,b") = true ↔ 4 ≤ (chars "a,b").count ',') ∧
    check_serial_line 0 st0 (chars "a,b") =
      (if chars "a,b" = ([] : List Char) then st0
       else { st0 with log_entries := add_log st0.log_entries (chars "a,b") }) :=
  ⟨(c1_csv_classifier (chars "a,b")).1,
    (c1_csv_classifier (chars "a,b")).2 (by decide) 0 st0⟩

/-- Claim C2: on every successfully parsed telemetry line, the stored power is
voltage times current when the parsed current is at least 0.001, else 0. -/
theorem c2_power_guard (now : ℚ) (data : List Char) (st st2 : DState)
    (h5 : (lineParts data).length ≥ 5)
    (h : process_try_body now data st = (Except.ok (), st2)) :
    st2.power_value =
      if st2.current_value ≥ 1/1000 then st2.voltage_value * st2.current_value
      else 0 := by
  rcases process_try_body_cases now data st with ⟨e, hE⟩ | ⟨hOk, hn5⟩ |
    ⟨t, th, ct, c, vt, vq, rt, r, _, _, _, _, _, _, _, _, _, hOk⟩
  · rw [hE] at h
    exact absurd h (by simp)
  · exact absurd h5 hn5
  · rw [hOk] at h
    have hst : st2 = apply_sample now t th c vq r st := by
      have h2 := congrArg Prod.snd h
      simpa using h2.symm
    subst hst
    simp [apply_sample]

theorem c2_power_guard_witness :
    (apply_sample 0 100 1 2 3 4 st0).power_value =
      (if (apply_sample 0 100 1 2 3 4 st0).current_value ≥ 1/1000 then
        (apply_sample 0 100 1 2 3 4 st0).voltage_value *
          (apply_sample 0 100 1 2 3 4 st0).current_value
      else 0) :=
  c2_power_guard 0 (chars "100,1,2,3,4") st0 (apply_sample 0 100 1 2 3 4 st0)
    (by decide)
    (try_body_ok_of_parses 0 (chars "100,1,2,3,4") st0 100 1 (chars "2") 2
      (chars "3") 3 (chars "4") 4
      (by decide) (by decide)
      (parseFloat_pyStrip_eq _ (chars "1") _ (by decide) (by with_unfolding_all decide))
      (by decide) (by with_unfolding_all decide)
      (by decide) (by with_unfolding_all decide)
      (by decide) (by with_unfolding_all decide))

/-- Claim C3: on every successfully parsed telemetry line, the stored
efficiency is thrust divided by the derived power when that power is at least
0.001, else 0. -/
theorem c3_eff_guard (now : ℚ) (data : List Char) (st st2 : DState)
    (h5 : (lineParts data).length ≥ 5)
    (h : process_try_body now data st = (Except.ok (), st2)) :
    st2.eff_value =
      if st2.power_value ≥ 1/1000 then st2.thrust_value / st2.power_value
      else 0 := by
  rcases process_try_body_cases now data st with ⟨e, hE⟩ | ⟨hOk, hn5⟩ |
    ⟨t, th, ct, c, vt, vq, rt, r, _, _, _, _, _, _, _, _, _, hOk⟩
  · rw [hE] at h
    exact absurd h (by simp)
  · exact absurd h5 hn5
  · rw [hOk] at h
    have hst : st2 = apply_sample now t th c vq r st := by
      have h2 := congrArg Prod.snd h
      simpa using h2.symm
    subst hst
    simp [apply_sample]

theorem c3_eff_guard_witness :
    (apply_sample 0 100 5 2 3 4 st0).eff_value =
      (if (apply_sample 0 100 5 2 3 4 st0).power_value ≥ 1/1000 then
        (apply_sample 0 100 5 2 3 4 st0).thrust_value /
          (apply_sample 0 100 5 2 3 4 st0).power_value
      else 0) :=
  c3_eff_guard 0 (chars "100,5,2,3,4") st0 (apply_sample 0 100 5 2 3 4 st0)
    (by decide)
    (try_body_ok_of_parses 0 (chars "100,5,2,3,4") st0 100 5 (chars "2") 2
      (chars "3") 3 (chars "4") 4
      (by decide) (by decide)
      (parseFloat_pyStrip_eq _ (chars "5") _ (by decide) (by with_unfolding_all decide))
      (by decide) (by with_unfolding_all decide)
      (by decide) (by with_unfolding_all decide)
      (by decide) (by with_unfolding_all decide))

/-- Claim C4: for a slider value `v ≤ 1000`, the wire command is the string
`"P "` followed by the decimal digits of `v + 1000` and a newline; reading the
digits back yields `v + 1000`, which always lies in `[1000, 2000]`. -/
theorem c4_power_command (v : Nat) (hv : v ≤ 1000) :
    send_power_value v = chars "P " ++ natDigits (1000 + v) ++ chars "\n" ∧
    natFromDigits (natDigits (1000 + v)) = 1000 + v ∧
    1000 ≤ 1000 + v ∧ 1000 + v ≤ 2000 :=
  ⟨rfl, natFromDigits_natDigits _, by omega, by omega⟩

theorem c4_power_command_witness :
    send_power_value 500 = chars "P " ++ natDigits 1500 ++ chars "\n" ∧
    natFromDigits (natDigits 1500) = 1500 ∧
    1000 ≤ 1500 ∧ 1500 ≤ 2000 :=
  c4_power_command 500 (by decide)

/-- Claim C5 counterexample: by the claim, every field with a trailing
non-numeric suffix is truncated at the first space before numeric parsing, so
the line `"1500,120.5 g3,2.1,11.8,8300"` (thrust field cleans to `"120.5 3"`,
truncating to `"120.5"`) should parse; the code instead strips the thrust
field without truncation, `float("120.5 3")` raises `ValueError`, and the
line is discarded with the state unchanged. -/
theorem c5_cex :
    parseFloat? (spec_truncate_at_space
        ((lineParts (chars "1500,120.5 g3,2.1,11.8,8300")).getD 1 [])) =
      some (241/2) ∧
    process_try_body 0 (chars "1500,120.5 g3,2.1,11.8,8300") st0 =
      (Except.error PyErr.valueError, st0) := by
  constructor
  · rw [(by decide : spec_truncate_at_space
        ((lineParts (chars "1500,120.5 g3,2.1,11.8,8300")).getD 1 []) = chars "120.5")]
    with_unfolding_all decide
  · refine try_body_err_thrust 0 _ st0 1500 (by decide) (by decide) ?_
    rw [(by decide : pyStrip
        ((lineParts (chars "1500,120.5 g3,2.1,11.8,8300")).getD 1 []) = chars "120.5 3")]
    decide

/-- Claim C5 (amended): characters outside {digits, comma, period, minus,
space} are discarded before splitting; the first-space truncation applies to
the current, voltage and rpm fields (taken as their first whitespace-separated
token via `split()[0]`), while the time and thrust fields are only stripped of
surrounding whitespace before `int()`/`float()`. -/
theorem c5_field_extraction (now : ℚ) (data : List Char) (st : DState)
    (time_ms : Int) (thrust : ℚ) (ctok : List Char) (current : ℚ)
    (vtok : List Char) (voltage : ℚ) (rtok : List Char) (rpm : ℚ)
    (h5 : (splitOnComma (data.filter allowedChar)).length ≥ 5)
    (h0 : parseInt? (pyStrip ((splitOnComma (data.filter allowedChar)).getD 0 [])) =
      some time_ms)
    (h1 : parseFloat? (pyStrip ((splitOnComma (data.filter allowedChar)).getD 1 [])) =
      some thrust)
    (h2 : firstTok? ((splitOnComma (data.filter allowedChar)).getD 2 []) = some ctok)
    (h3 : parseFloat? (pyStrip ctok) = some current)
    (h4 : firstTok? ((splitOnComma (data.filter allowedChar)).getD 3 []) = some vtok)
    (h6 : parseFloat? (pyStrip vtok) = some voltage)
    (h7 : firstTok? ((splitOnComma (data.filter allowedChar)).getD 4 []) = some rtok)
    (h8 : parseFloat? (pyStrip rtok) = some rpm) :
    process_try_body now data st =
      (Except.ok (), apply_sample now time_ms thrust current voltage rpm st) :=
  try_body_ok_of_parses now data st time_ms thrust ctok current vtok voltage rtok rpm
    h5 h0 h1 h2 h3 h4 h6 h7 h8

theorem c5_field_extraction_witness :
    process_try_body 0 (chars "1,2,3 A,4 V,5 rpm") st0 =
      (Except.ok (), apply_sample 0 1 2 3 4 5 st0) :=
  c5_field_extraction 0 (chars "1,2,3 A,4 V,5 rpm") st0 1 2 (chars "3") 3
    (chars "4") 4 (chars "5") 5
    (by decide) (by decide)
    (parseFloat_pyStrip_eq _ (chars "2") _ (by decide) (by with_unfolding_all decide))
    (by decide) (by with_unfolding_all decide)
    (by decide) (by with_unfolding_all decide)
    (by decide) (by with_unfolding_all decide)

/-- Claim C6: the example line `"1500,120.5,2.1 A,11.8 V,8300 rpm"` parses to
thrust 120.5, current 2.1, voltage 11.8, rpm 8300, with derived power exactly
24.78 and derived efficiency within 0.005 of 4.865 (exactly 6025/1239). -/
theorem c6_example :
    process_try_body 0 (chars "1500,120.5,2.1 A,11.8 V,8300 rpm") st0 =
      (Except.ok (), apply_sample 0 1500 (241/2) (21/10) (59/5) 8300 st0) ∧
    (apply_sample 0 1500 (241/2) (21/10) (59/5) 8300 st0).thrust_value = 241/2 ∧
    (apply_sample 0 1500 (241/2) (21/10) (59/5) 8300 st0).current_value = 21/10 ∧
    (apply_sample 0 1500 (241/2) (21/10) (59/5) 8300 st0).voltage_value = 59/5 ∧
    (apply_sample 0 1500 (241/2) (21/10) (59/5) 8300 st0).rpm_value = 8300 ∧
    (apply_sample 0 1500 (241/2) (21/10) (59/5) 8300 st0).power_value = 2478/100 ∧
    (apply_sample 0 1500 (241/2) (21/10) (59/5) 8300 st0).eff_value = 6025/1239 ∧
    |(apply_sample 0 1500 (241/2) (21/10) (59/5) 8300 st0).eff_value - 4865/1000| <
      5/1000 := by
  refine ⟨?_, ?_, ?_, ?_, ?_, ?_, ?_, ?_⟩
  · exact try_body_ok_of_parses 0 _ st0 1500 (241/2) (chars "2.1") (21/10)
      (chars "11.8") (59/5) (chars "8300") 8300
      (by decide) (by decide)
      (parseFloat_pyStrip_eq _ (chars "120.5") _ (by decide) (by with_unfolding_all decide))
      (by decide) (by with_unfolding_all decide)
      (by decide) (by with_unfolding_all decide)
      (by decide)
      (parseFloat_pyStrip_eq _ (chars "8300") _ (by decide)
        (parseFloat_digits_value (chars "8300") 8300 8300 (by decide) (by decide)
          (by decide) (by norm_num)))
  · norm_num [apply_sample]
  · norm_num [apply_sample]
  · norm_num [apply_sample]
  · norm_num [apply_sample]
  · norm_num [apply_sample]
  · norm_num [apply_sample]
  · norm_num [apply_sample, abs_lt]

/-- One `add_log` step keeps the bound and evicts the oldest entry exactly
when the log was full. -/
theorem add_log_step (entries : List (List Char)) (e : List Char)
    (h : entries.length ≤ 10) :
    (add_log entries e).length ≤ 10 ∧
    add_log entries e =
      (if entries.length = 10 then entries.drop 1 ++ [e] else entries ++ [e]) := by
  simp only [add_log]
  by_cases h10 : entries.length = 10
  · have hgt : (entries ++ [e]).length > 10 := by simp [h10]
    rw [if_pos hgt, if_pos h10]
    refine ⟨?_, ?_⟩
    · simp
      omega
    · have h1 : 1 ≤ entries.length := by omega
      rw [List.drop_append_of_le_length h1]
  · have hle : ¬ (entries ++ [e]).length > 10 := by simp; omega
    rw [if_neg hle, if_neg h10]
    refine ⟨?_, rfl⟩
    simp
    omega

/-- The bound is preserved along any sequence of `add_log` calls. -/
theorem add_log_foldl_bound (es : List (List Char)) (acc : List (List Char))
    (h : acc.length ≤ 10) : (es.foldl add_log acc).length ≤ 10 := by
  induction es generalizing acc with
  | nil => exact h
  | cons e es ih =>
    exact ih (add_log acc e) (add_log_step acc e h).1

/-- Claim C7: starting from the empty log, after any sequence of `add_log`
calls the buffer holds at most 10 entries; and at every step from a log
within bound, the result is within bound and an entry is evicted exactly when
the log was full, the evicted entry being the oldest (the front). -/
theorem c7_log_buffer :
    (∀ (entries : List (List Char)) (e : List Char), entries.length ≤ 10 →
      (add_log entries e).length ≤ 10 ∧
      add_log entries e =
        (if entries.length = 10 then entries.drop 1 ++ [e] else entries ++ [e])) ∧
    (∀ es : List (List Char), (es.foldl add_log []).length ≤ 10) :=
  ⟨add_log_step, fun es => add_log_foldl_bound es [] (by simp)⟩

theorem c7_log_buffer_witness :
    (add_log (List.replicate 10 (chars "x")) (chars "y")).length ≤ 10 ∧
    add_log (List.replicate 10 (chars "x")) (chars "y") =
      (if (List.replicate 10 (chars "x")).length = 10
       then (List.replicate 10 (chars "x")).drop 1 ++ [chars "y"]
       else List.replicate 10 (chars "x") ++ [chars "y"]) :=
  c7_log_buffer.1 (List.replicate 10 (chars "x")) (chars "y") (by decide)

/-- Claim C8 counterexample: the line `"1,2, ,4,5"` passes the CSV classifier
and fails parsing (its third field is a single space, so `split()[0]` raises
`IndexError`), but the error is not swallowed: `check_serial`'s handler posts
a visible `Read error` entry to the log. -/
theorem c8_cex :
    is_csv_data (chars "1,2, ,4,5") = true ∧
    process_try_body 0 (chars "1,2, ,4,5")
        { st0 with log_entries := add_log st0.log_entries (chars "1,2, ,4,5") } =
      (Except.error PyErr.indexError,
        { st0 with log_entries := add_log st0.log_entries (chars "1,2, ,4,5") }) ∧
    (check_serial_line 0 st0 (chars "1,2, ,4,5")).log_entries =
      [chars "1,2, ,4,5", chars "Read error: list index out of range"] := by
  have herr := try_body_err_ctok 0 (chars "1,2, ,4,5")
    { st0 with log_entries := add_log st0.log_entries (chars "1,2, ,4,5") } 1 2
    (by decide) (by decide)
    (parseFloat_pyStrip_eq _ (chars "2") _ (by decide) (by with_unfolding_all decide))
    (by decide)
  have hne : chars "1,2, ,4,5" ≠ [] := by decide
  have hcsv : is_csv_data (chars "1,2, ,4,5") = true := by decide
  refine ⟨hcsv, herr, ?_⟩
  simp only [check_serial_line, if_neg hne, hcsv, if_true, process_serial_data, herr]
  decide

/-- Claim C8 (amended): a telemetry-shaped line whose parsing fails with a
`ValueError` (a numeric conversion failure) is discarded silently, leaving
only the ordinary received-line log entry; but an `IndexError` from an
all-space field escapes and is surfaced as a `Read error` log entry. -/
theorem c8_value_error_swallowed (now : ℚ) (st : DState) (line : List Char)
    (hne : line ≠ []) (hcsv : is_csv_data line = true)
    (herr : (process_try_body now line
        { st with log_entries := add_log st.log_entries line }).1 =
      Except.error PyErr.valueError) :
    check_serial_line now st line =
      { st with log_entries := add_log st.log_entries line } := by
  rcases process_try_body_cases now line
      { st with log_entries := add_log st.log_entries line } with
    ⟨e, hE⟩ | ⟨hOk, _⟩ | ⟨t, th, ct, c, vt, vq, rt, r, _, _, _, _, _, _, _, _, _, hOk⟩
  · have he : e = PyErr.valueError := by
      rw [hE] at herr
      simpa using herr
    subst he
    simp [check_serial_line, if_neg hne, hcsv, process_serial_data, hE]
  · rw [hOk] at herr
    simp at herr
  · rw [hOk] at herr
    simp at herr

theorem c8_value_error_swallowed_witness :
    check_serial_line 0 st0 (chars "a,b,c,d,e") =
      { st0 with log_entries := add_log st0.log_entries (chars "a,b,c,d,e") } :=
  c8_value_error_swallowed 0 st0 (chars "a,b,c,d,e") (by decide) (by decide)
    (by rw [try_body_err_time 0 (chars "a,b,c,d,e") _ (by decide) (by decide)])

/-- Claim C9 counterexample: a sweep from 1000 to 1000 in steps of 100 has
exactly one power step, but when the device yields an empty line for that
step the sweep writes no output line at all, contradicting "exactly one line
per step". -/
theorem c9_cex :
    pwm_values 1000 1000 100 = [1000] ∧
    sweep_run 1000 1000 100 [[]] = [] ∧
    (sweep_run 1000 1000 100 [[]]).length ≠ (pwm_values 1000 1000 100).length := by
  refine ⟨by decide, by decide, by decide⟩

/-- Each sweep step emits at most one line. -/
theorem sweep_flatMap_length_le (ls : List (List Char)) :
    (ls.flatMap sweep_step_output).length ≤ ls.length := by
  induction ls with
  | nil => simp
  | cons l ls ih =>
    simp only [List.flatMap_cons, List.length_append, List.length_cons]
    have h1 : (sweep_step_output l).length ≤ 1 := by
      unfold sweep_step_output
      split <;> simp
    omega

/-- When every read line is telemetry-shaped, the sweep echoes them all. -/
theorem sweep_flatMap_all_valid (ls : List (List Char))
    (h : ∀ l ∈ ls, l ≠ [] ∧ l.count ',' = 4) :
    ls.flatMap sweep_step_output = ls := by
  induction ls with
  | nil => simp
  | cons l ls ih =>
    have hl := h l (by simp)
    simp only [List.flatMap_cons, sweep_step_output, if_pos hl]
    rw [ih (fun x hx => h x (by simp [hx]))]
    rfl

/-- Claim C9 (amended): per power step the sweep writes at most one line, and
a step's line is written iff it is nonempty with exactly 4 commas; in
particular when every step reads a telemetry-shaped line, exactly one line is
written per step. -/
theorem c9_sweep_output (start endv inc : Nat) (ls : List (List Char))
    (hlen : ls.length = (pwm_values start endv inc).length) :
    (sweep_run start endv inc ls).length ≤ (pwm_values start endv inc).length ∧
    ((∀ l ∈ ls, l ≠ [] ∧ l.count ',' = 4) → sweep_run start endv inc ls = ls) := by
  have hmap : ((pwm_values start endv inc).zip ls).map Prod.snd = ls :=
    List.map_snd_zip _ _ (le_of_eq hlen)
  unfold sweep_run
  rw [hmap]
  exact ⟨le_trans (sweep_flatMap_length_le ls) (le_of_eq hlen),
    fun h => sweep_flatMap_all_valid ls h⟩

theorem c9_sweep_output_witness :
    (sweep_run 1000 1200 100
        [chars "1,2,3,4,5", chars "1,2,3,4,5", chars "1,2,3,4,5"]).length ≤
      (pwm_values 1000 1200 100).length ∧
    ((∀ l ∈ [chars "1,2,3,4,5", chars "1,2,3,4,5", chars "1,2,3,4,5"],
        l ≠ [] ∧ l.count ',' = 4) →
      sweep_run 1000 1200 100
          [chars "1,2,3,4,5", chars "1,2,3,4,5", chars "1,2,3,4,5"] =
        [chars "1,2,3,4,5", chars "1,2,3,4,5", chars "1,2,3,4,5"]) :=
  c9_sweep_output 1000 1200 100
    [chars "1,2,3,4,5", chars "1,2,3,4,5", chars "1,2,3,4,5"] (by decide)

/-- Claim C10: processing a telemetry-shaped line is atomic: all five fields
are parsed before any assignment, so whenever the try body raises, none of
the stored channel values, gauges, time label, or last-update timestamp are
modified. -/
theorem c10_parse_atomic (now : ℚ) (data : List Char) (st : DState) (e : PyErr)
    (h : (process_try_body now data st).1 = Except.error e) :
    (process_try_body now data st).2 = st := by
  rcases process_try_body_cases now data st with ⟨e2, hE⟩ | ⟨hOk, _⟩ |
    ⟨t, th, ct, c, vt, vq, rt, r, _, _, _, _, _, _, _, _, _, hOk⟩
  · rw [hE]
  · rw [hOk] at h
    simp at h
  · rw [hOk] at h
    simp at h

theorem c10_parse_atomic_witness :
    (process_try_body 0 (chars "1,2, ,4,5") st0).1 = Except.error PyErr.indexError ∧
    (process_try_body 0 (chars "1,2, ,4,5") st0).2 = st0 := by
  have herr := try_body_err_ctok 0 (chars "1,2, ,4,5") st0 1 2
    (by decide) (by decide)
    (parseFloat_pyStrip_eq _ (chars "2") _ (by decide) (by with_unfolding_all decide))
    (by decide)
  exact ⟨by rw [herr], c10_parse_atomic 0 (chars "1,2, ,4,5") st0 PyErr.indexError
    (by rw [herr])⟩
